import Mathlib

/-!
Shallow embedding of `src/GUI_quiz.py` (class `QuizApp`).

The Python program is a tkinter GUI quiz.  We embed the state the methods
read and write: the loaded question list, the score, the question counter,
and the widget state the logic depends on (button enabled/disabled state,
button texts and colours, the labels).  Python exceptions that escape a
method are modelled with `Except QuizError`; the two exceptions caught in
`__init__` get their own constructors, and any uncaught Python `IndexError`
is `QuizError.indexError`.  tkinter click dispatch is modelled by
`clickAlternative`: a disabled (or non-existent) button never invokes its
command, so the click is ignored.
-/

namespace GUIQuiz

/-- One record of `quiz_questions.json`: fields `question`, `alternatives`,
`correct_answer` as read by the Python code. -/
structure Question where
  question : String
  alternatives : List String
  correct_answer : Nat
  deriving Repr, DecidableEq

/-- tkinter widget `state` option: `"normal"` or `"disabled"`. -/
inductive WidgetState where
  | normal
  | disabled
  deriving Repr, DecidableEq

/-- The pieces of a `tk.Button` that the quiz logic touches:
`text`, `state`, `bg`. -/
structure Button where
  text : String
  state : WidgetState
  bg : String
  deriving Repr, DecidableEq

/-- Errors: the two exceptions `__init__` catches (file not found, JSON
decode error) and any uncaught Python `IndexError`. -/
inductive QuizError where
  | fileNotFound
  | jsonDecodeError
  | indexError
  deriving Repr, DecidableEq

/-- The mutable state of a `QuizApp` instance (lines 36-45 of the source
plus the widgets from `setup_widgets`). -/
structure QuizApp where
  quiz_questions : List Question
  score : Int
  total_questions : Nat
  current_question_index : Nat
  question_label : String
  alternative_buttons : List Button
  feedback_label : String
  score_label : String
  next_button_state : WidgetState
  deriving Repr, DecidableEq

/-- The input to `__init__`: the file is absent (`FileNotFoundError`), its
content does not parse (`json.JSONDecodeError`), or it parses to a list of
records. -/
inductive Source where
  | missing
  | invalid
  | parsed (records : List Question)
  deriving Repr, DecidableEq

/-- `setup_widgets` (lines 47-118): three answer buttons, each created with
empty text, state `normal`, background `"#4CAF50"`. -/
def setup_widgets : List Button :=
  List.replicate 3 { text := "", state := WidgetState.normal, bg := "#4CAF50" }

/-- `f"Score: {score}"` used for the score label. -/
def scoreText (score : Int) : String :=
  "Score: " ++ toString score

/-- `buttons[i].config(text=...)` for each alternative in order
(lines 135-136): Python raises `IndexError` when the alternatives outnumber
the buttons. -/
def configTexts : List Button → List String → Option (List Button)
  | bs, [] => some bs
  | [], _ :: _ => none
  | b :: bs, a :: rest =>
    match configTexts bs rest with
    | none => none
    | some bs2 => some ({ b with text := a } :: bs2)

/-- `buttons[i].config(bg=c)`: `none` models the Python `IndexError` when
`i` is not a valid button index. -/
def configBg (bs : List Button) (i : Nat) (c : String) : Option (List Button) :=
  match bs[i]? with
  | none => none
  | some b => some (bs.set i { b with bg := c })

/-- Lines 127-128: every answer button is re-enabled with the green
background. -/
def enableAll (bs : List Button) : List Button :=
  bs.map (fun b => { b with state := WidgetState.normal, bg := "#4CAF50" })

/-- Lines 146-147: every answer button is disabled. -/
def disableAll (bs : List Button) : List Button :=
  bs.map (fun b => { b with state := WidgetState.disabled })

/-- `load_question` (lines 120-136): reset feedback, disable the Next
button, re-enable all answer buttons with the green background, read the
current question, set the question label and the button texts.  Widget
writes preceding an uncaught `IndexError` are dropped together with the
state, since the exception escapes the program. -/
def load_question (app : QuizApp) : Except QuizError QuizApp :=
  match app.quiz_questions[app.current_question_index]? with
  | none => Except.error QuizError.indexError
  | some question_data =>
    match configTexts (enableAll app.alternative_buttons) question_data.alternatives with
    | none => Except.error QuizError.indexError
    | some btns =>
      Except.ok
        { app with
          feedback_label := ""
          next_button_state := WidgetState.disabled
          question_label := question_data.question
          alternative_buttons := btns }

/-- `check_answer` (lines 138-165): disable all answer buttons, read the
current question, compare the clicked index with `correct_answer`; on a
match add one to the score, mark the button green; otherwise subtract one,
mark the clicked button red and the correct one lightgreen; update the
score label and enable the Next button. -/
def check_answer (app : QuizApp) (user_answer : Nat) : Except QuizError QuizApp :=
  match app.quiz_questions[app.current_question_index]? with
  | none => Except.error QuizError.indexError
  | some question_data =>
    if user_answer = question_data.correct_answer then
      match configBg (disableAll app.alternative_buttons) user_answer "green" with
      | none => Except.error QuizError.indexError
      | some btns =>
        Except.ok
          { app with
            score := app.score + 1
            feedback_label := "Correct!"
            alternative_buttons := btns
            score_label := scoreText (app.score + 1)
            next_button_state := WidgetState.normal }
    else
      match question_data.alternatives[question_data.correct_answer]? with
      | none => Except.error QuizError.indexError
      | some correct_answer_text =>
        match configBg (disableAll app.alternative_buttons) user_answer "red" with
        | none => Except.error QuizError.indexError
        | some btns =>
          match configBg btns question_data.correct_answer "lightgreen" with
          | none => Except.error QuizError.indexError
          | some btns2 =>
            Except.ok
              { app with
                score := app.score - 1
                feedback_label := "Incorrect! The correct answer was: " ++ correct_answer_text
                alternative_buttons := btns2
                score_label := scoreText (app.score - 1)
                next_button_state := WidgetState.normal }

/-- The three result tiers of `show_final_results` (one per branch of the
if-chain at lines 182-187). -/
inductive Tier where
  | Perfect
  | Pass
  | Fail
  deriving Repr, DecidableEq

/-- The branch selection of lines 182-187: `score == total` gives the
perfect-score message, `score >= total // 2` the pass message, anything
else the failure message.  `total // 2` is Python floor division of the
non-negative count, i.e. `Nat` division. -/
def tierOf (score : Int) (total : Nat) : Tier :=
  if score = (total : Int) then Tier.Perfect
  else if score ≥ ((total / 2 : Nat) : Int) then Tier.Pass
  else Tier.Fail

/-- What `show_final_results` (lines 177-192) reports: the final score,
the total, and which concluding message was chosen. -/
structure FinalResult where
  score : Int
  total : Nat
  tier : Tier
  deriving Repr, DecidableEq

/-- `show_final_results` (lines 177-192). -/
def show_final_results (app : QuizApp) : FinalResult :=
  { score := app.score
    total := app.total_questions
    tier := tierOf app.score app.total_questions }

/-- `next_question` (lines 167-175): increment the index; load the next
question while `index < total_questions`, otherwise show the final results
and destroy the window. -/
def next_question (app : QuizApp) : Except QuizError (QuizApp ⊕ FinalResult) :=
  if app.current_question_index + 1 < app.total_questions then
    (load_question
      { app with current_question_index := app.current_question_index + 1 }).map Sum.inl
  else
    Except.ok (Sum.inr (show_final_results
      { app with current_question_index := app.current_question_index + 1 }))

/-- The state initialisation of `__init__` (lines 36-42) together with
`setup_widgets` (line 42 calls it before `load_question`). -/
def initStateVars (qs : List Question) : QuizApp :=
  { quiz_questions := qs
    score := 0
    total_questions := qs.length
    current_question_index := 0
    question_label := ""
    alternative_buttons := setup_widgets
    feedback_label := ""
    score_label := "Score: 0"
    next_button_state := WidgetState.disabled }

/-- `__init__` (lines 11-45): the two caught load failures destroy the
window before any session state is assigned; otherwise the state variables
are initialised and the first question is loaded. -/
def initApp : Source → Except QuizError QuizApp
  | Source.missing => Except.error QuizError.fileNotFound
  | Source.invalid => Except.error QuizError.jsonDecodeError
  | Source.parsed qs => load_question (initStateVars qs)

/-- The dialog text `__init__` surfaces for each caught error
(lines 28 and 32); an uncaught `IndexError` produces no dialog. -/
def errorDialog : QuizError → Option String
  | QuizError.fileNotFound => some "quiz_questions.json not found!"
  | QuizError.jsonDecodeError => some "Invalid format in quiz_questions.json!"
  | QuizError.indexError => none

/-- What a user click on answer button `i` does: tkinter only invokes the
`command` of a button that exists and is not disabled (`check_answer` is
wired as the command at line 79); otherwise the click has no effect. -/
inductive ClickResult where
  | ignored
  | handled (r : Except QuizError QuizApp)
  deriving Repr

/-- Dispatch of a click on answer button `i`. -/
def clickAlternative (app : QuizApp) (i : Nat) : ClickResult :=
  match app.alternative_buttons[i]? with
  | none => ClickResult.ignored
  | some b =>
    match b.state with
    | WidgetState.disabled => ClickResult.ignored
    | WidgetState.normal => ClickResult.handled (check_answer app i)

/-- A run is either still showing a question or has shown the final
results (and destroyed the window). -/
inductive PlayOutcome where
  | playing (app : QuizApp)
  | finished (fr : FinalResult)
  deriving Repr

/-- The score visible after a run: the running score, or the reported
final score. -/
def outcomeScore : PlayOutcome → Int
  | PlayOutcome.playing app => app.score
  | PlayOutcome.finished fr => fr.score

/-- The total after a run. -/
def outcomeTotal : PlayOutcome → Nat
  | PlayOutcome.playing app => app.total_questions
  | PlayOutcome.finished fr => fr.total

/-- The control flow of the GUI, one round per submitted answer: the user
answers (`check_answer`, wired to the buttons) and presses Next
(`next_question`, wired to the Next button).  Once the final results are
shown the window is destroyed, so a run that still has answers left after
completion is stuck (modelled as an error). -/
def play : QuizApp → List Nat → Except QuizError PlayOutcome
  | app, [] => Except.ok (PlayOutcome.playing app)
  | app, a :: rest =>
    match check_answer app a with
    | Except.error e => Except.error e
    | Except.ok app1 =>
      match next_question app1 with
      | Except.error e => Except.error e
      | Except.ok (Sum.inl app2) => play app2 rest
      | Except.ok (Sum.inr fr) =>
        match rest with
        | [] => Except.ok (PlayOutcome.finished fr)
        | _ :: _ => Except.error QuizError.indexError

/-- Whether answer `a` to the question at position `k` matches that
question's `correct_answer`. -/
def isCorrectAt (qs : List Question) (k : Nat) (a : Nat) : Bool :=
  match qs[k]? with
  | some q => a = q.correct_answer
  | none => false

/-- Number of correct answers in a run that starts at question `start`. -/
def countCorrect (qs : List Question) (start : Nat) : List Nat → Nat
  | [] => 0
  | a :: rest => (if isCorrectAt qs start a then 1 else 0) + countCorrect qs (start + 1) rest

/-- Number of incorrect answers in a run that starts at question `start`. -/
def countIncorrect (qs : List Question) (start : Nat) : List Nat → Nat
  | [] => 0
  | a :: rest => (if isCorrectAt qs start a then 0 else 1) + countIncorrect qs (start + 1) rest

/-! Concrete data used by the witnesses and counterexamples. -/

/-- A well-formed three-alternative question, correct answer at index 1. -/
def demoQ : Question :=
  { question := "Q1", alternatives := ["a", "b", "c"], correct_answer := 1 }

/-- A two-alternative question, correct answer at index 0. -/
def demoQ2 : Question :=
  { question := "Q2", alternatives := ["a", "b"], correct_answer := 0 }

/-- A four-alternative question. -/
def demoQ4 : Question :=
  { question := "Q4", alternatives := ["a", "b", "c", "d"], correct_answer := 0 }

/-- A record violating the Question invariant: `correct_answer = 5` with
only three alternatives. -/
def badQ : Question :=
  { question := "Q", alternatives := ["a", "b", "c"], correct_answer := 5 }

/-- Fallback value for extracting concrete app states. -/
def dummyApp : QuizApp := initStateVars []

/-- The app state after starting a quiz on `[demoQ]`. -/
def demoApp : QuizApp := (initApp (Source.parsed [demoQ])).toOption.getD dummyApp

/-- `demoApp` after answering the first question correctly (choice 1). -/
def demoAfterFirst : QuizApp := (check_answer demoApp 1).toOption.getD dummyApp

/-- The app state after starting a quiz on `[demoQ2]`. -/
def demoApp2 : QuizApp := (initApp (Source.parsed [demoQ2])).toOption.getD dummyApp

/-- `demoApp2` after clicking button 2, which is out of range for the
two-alternative question `demoQ2`. -/
def demoAfterOOR : QuizApp := (check_answer demoApp2 2).toOption.getD dummyApp

/-- The app state after starting a quiz on `[badQ]`. -/
def badApp : QuizApp := (initApp (Source.parsed [badQ])).toOption.getD dummyApp

/-- The outcome of playing the one-question quiz `[demoQ]` with the single
correct answer 1. -/
def demoOutcome : PlayOutcome :=
  (play demoApp [1]).toOption.getD (PlayOutcome.playing dummyApp)

/-! Helper lemmas about the embedded operations. -/

/-- `configBg` succeeds exactly on valid button indices, preserving the
length of the button list. -/
theorem configBg_some_of_lt {bs : List Button} {i : Nat} (c : String)
    (h : i < bs.length) :
    ∃ bs2, configBg bs i c = some bs2 ∧ bs2.length = bs.length := by
  unfold configBg
  rw [List.getElem?_eq_getElem h]
  exact ⟨_, rfl, List.length_set bs i _⟩

/-- `configBg` only changes a background colour: any uniform button state
is preserved. -/
theorem configBg_state_pres {bs : List Button} {i : Nat} {c : String}
    {bs2 : List Button} {s : WidgetState} (h : configBg bs i c = some bs2)
    (hall : ∀ b ∈ bs, b.state = s) : ∀ b ∈ bs2, b.state = s := by
  unfold configBg at h
  cases hg : bs[i]? with
  | none => rw [hg] at h; exact absurd h (by simp)
  | some b =>
    rw [hg] at h
    injection h with h
    subst h
    intro x hx
    rcases List.mem_or_eq_of_mem_set hx with h1 | h2
    · exact hall x h1
    · subst h2
      obtain ⟨hlt, rfl⟩ := List.getElem?_eq_some.mp hg
      exact hall (bs.get ⟨i, hlt⟩) (List.getElem_mem hlt)

/-- What a successful `check_answer` does to the session fields: the
question list, position and total are untouched, the score moves by
exactly one according to the comparison with `correct_answer`, and every
answer button ends up disabled. -/
theorem check_answer_ok {app : QuizApp} {a : Nat} {a1 : QuizApp}
    (h : check_answer app a = Except.ok a1) :
    ∃ q, app.quiz_questions[app.current_question_index]? = some q ∧
      a1.quiz_questions = app.quiz_questions ∧
      a1.current_question_index = app.current_question_index ∧
      a1.total_questions = app.total_questions ∧
      a1.score = (if a = q.correct_answer then app.score + 1 else app.score - 1) ∧
      ∀ b ∈ a1.alternative_buttons, b.state = WidgetState.disabled := by
  have hdis : ∀ b ∈ disableAll app.alternative_buttons, b.state = WidgetState.disabled := by
    intro b hb
    unfold disableAll at hb
    obtain ⟨b0, _, rfl⟩ := List.mem_map.mp hb
    rfl
  unfold check_answer at h
  split at h
  · exact absurd h (by simp)
  case _ question_data hq =>
    split at h
    case isTrue heq =>
      split at h
      · exact absurd h (by simp)
      case _ btns hbg =>
        injection h with h
        subst h
        exact ⟨question_data, hq, rfl, rfl, rfl, by simp [heq],
          configBg_state_pres hbg hdis⟩
    case isFalse hne =>
      split at h
      · exact absurd h (by simp)
      case _ txt htxt =>
        split at h
        · exact absurd h (by simp)
        case _ btns hbg =>
          split at h
          · exact absurd h (by simp)
          case _ btns2 hbg2 =>
            injection h with h
            subst h
            exact ⟨question_data, hq, rfl, rfl, rfl, by simp [hne],
              configBg_state_pres hbg2 (configBg_state_pres hbg hdis)⟩

/-- A successful `load_question` changes only widget contents: score,
question list, position and total are untouched. -/
theorem load_question_ok {app a2 : QuizApp} (h : load_question app = Except.ok a2) :
    a2.score = app.score ∧ a2.quiz_questions = app.quiz_questions ∧
    a2.current_question_index = app.current_question_index ∧
    a2.total_questions = app.total_questions := by
  unfold load_question at h
  split at h
  · exact absurd h (by simp)
  case _ q hq =>
    split at h
    · exact absurd h (by simp)
    case _ btns hb =>
      injection h with h
      subst h
      exact ⟨rfl, rfl, rfl, rfl⟩

/-- `next_question` landing on another question: the position advances by
one and nothing else of the session changes. -/
theorem next_question_inl {app a2 : QuizApp}
    (h : next_question app = Except.ok (Sum.inl a2)) :
    a2.score = app.score ∧ a2.quiz_questions = app.quiz_questions ∧
    a2.current_question_index = app.current_question_index + 1 ∧
    a2.total_questions = app.total_questions := by
  unfold next_question at h
  split at h
  case isTrue hlt =>
    cases hl : load_question
        { app with current_question_index := app.current_question_index + 1 } with
    | error e => rw [hl] at h; exact absurd h (by simp [Except.map])
    | ok b =>
      rw [hl] at h
      simp only [Except.map] at h
      injection h with h
      injection h with h
      subst h
      exact load_question_ok hl
  case isFalse hge =>
    exact absurd h (by simp)

/-- `next_question` reaching the end: the final results carry the current
score and the stored total. -/
theorem next_question_inr {app : QuizApp} {fr : FinalResult}
    (h : next_question app = Except.ok (Sum.inr fr)) :
    fr.score = app.score ∧ fr.total = app.total_questions ∧
    fr.tier = tierOf app.score app.total_questions := by
  unfold next_question at h
  split at h
  case isTrue hlt =>
    cases hl : load_question
        { app with current_question_index := app.current_question_index + 1 } with
    | error e => rw [hl] at h; exact absurd h (by simp [Except.map])
    | ok b => rw [hl] at h; exact absurd h (by simp [Except.map])
  case isFalse hge =>
    injection h with h
    injection h with h
    subst h
    exact ⟨rfl, rfl, rfl⟩

/-- `configTexts` succeeds whenever the buttons cover the alternatives. -/
theorem configTexts_some_of_le : ∀ (as : List String) (bs : List Button),
    as.length ≤ bs.length → ∃ bs2, configTexts bs as = some bs2
  | [], bs, _ => ⟨bs, by cases bs <;> rfl⟩
  | _ :: _, [], h => absurd h (by simp)
  | a :: rest, b :: bs, h => by
    obtain ⟨bs2, hb⟩ := configTexts_some_of_le rest bs (by simpa using h)
    exact ⟨{ b with text := a } :: bs2, by simp [configTexts, hb]⟩

/-- `configTexts` fails whenever the alternatives outnumber the buttons
(the Python `IndexError` at line 136). -/
theorem configTexts_none_of_lt : ∀ (as : List String) (bs : List Button),
    bs.length < as.length → configTexts bs as = none
  | [], _, h => absurd h (by simp)
  | _ :: _, [], _ => rfl
  | a :: rest, b :: bs, h => by
    have hr := configTexts_none_of_lt rest bs (by simpa using h)
    simp [configTexts, hr]

/-- Every answer is counted exactly once, as correct or as incorrect. -/
theorem count_sum (answers : List Nat) : ∀ (qs : List Question) (start : Nat),
    countCorrect qs start answers + countIncorrect qs start answers = answers.length := by
  induction answers with
  | nil => intro qs start; rfl
  | cons a rest ih =>
    intro qs start
    simp only [countCorrect, countIncorrect, List.length_cons]
    have := ih qs (start + 1)
    cases isCorrectAt qs start a <;> simp <;> omega

/-- Score bookkeeping along a run: after any successfully played answer
sequence the visible score is the starting score plus the number of
correct answers minus the number of incorrect ones, and the total is
untouched. -/
theorem play_spec (answers : List Nat) : ∀ (app : QuizApp) (r : PlayOutcome),
    play app answers = Except.ok r →
    outcomeScore r = app.score
      + (countCorrect app.quiz_questions app.current_question_index answers : Int)
      - (countIncorrect app.quiz_questions app.current_question_index answers : Int)
    ∧ outcomeTotal r = app.total_questions := by
  induction answers with
  | nil =>
    intro app r h
    unfold play at h
    injection h with h
    subst h
    simp [outcomeScore, outcomeTotal, countCorrect, countIncorrect]
  | cons a rest ih =>
    intro app r h
    unfold play at h
    split at h
    · exact absurd h (by simp)
    case _ app1 hca =>
      obtain ⟨q, hq, hqs1, hidx1, htot1, hsc1, _⟩ := check_answer_ok hca
      have hcc : countCorrect app.quiz_questions app.current_question_index (a :: rest)
          = (if a = q.correct_answer then 1 else 0)
            + countCorrect app.quiz_questions (app.current_question_index + 1) rest := by
        simp [countCorrect, isCorrectAt, hq]
      have hci : countIncorrect app.quiz_questions app.current_question_index (a :: rest)
          = (if a = q.correct_answer then 0 else 1)
            + countIncorrect app.quiz_questions (app.current_question_index + 1) rest := by
        simp [countIncorrect, isCorrectAt, hq]
      split at h
      · exact absurd h (by simp)
      case _ app2 hnq =>
        obtain ⟨hsc2, hqs2, hidx2, htot2⟩ := next_question_inl hnq
        obtain ⟨ihs, iht⟩ := ih app2 r h
        simp only [hqs2, hqs1, hidx2, hidx1] at ihs iht
        constructor
        · rw [ihs, hsc2, hsc1, hcc, hci]
          by_cases hqa : a = q.correct_answer <;> simp [hqa] <;> omega
        · rw [iht, htot2, htot1]
      case _ fr hnq =>
        obtain ⟨hfs, hft, _⟩ := next_question_inr hnq
        split at h
        case _ =>
          injection h with h
          subst h
          constructor
          · show fr.score = _
            rw [hfs, hsc1, hcc, hci]
            by_cases hqa : a = q.correct_answer <;>
              simp [hqa, countCorrect, countIncorrect]
          · show fr.total = _
            rw [hft, htot1]
        case _ =>
          exact absurd h (by simp)

/-! Claim theorems. -/

/-- Claim C1: the final tier is computed by fixed thresholds evaluated in
priority order — score equal to total gives Perfect, otherwise score at
least the integer floor of total/2 gives Pass, otherwise Fail — including
the listed boundary cases for totals 5 and 10. -/
theorem C1_tier_thresholds :
    (∀ app : QuizApp, (show_final_results app).tier = tierOf app.score app.total_questions) ∧
    (∀ (total : Nat) (score : Int),
      (score = (total : Int) → tierOf score total = Tier.Perfect) ∧
      (score ≠ (total : Int) → ((total / 2 : Nat) : Int) ≤ score →
        tierOf score total = Tier.Pass) ∧
      (score ≠ (total : Int) → score < ((total / 2 : Nat) : Int) →
        tierOf score total = Tier.Fail)) ∧
    tierOf 2 5 = Tier.Pass ∧ tierOf 1 5 = Tier.Fail ∧
    tierOf 5 10 = Tier.Pass ∧ tierOf 4 10 = Tier.Fail ∧ tierOf 10 10 = Tier.Perfect := by
  refine ⟨fun app => rfl, fun total score => ⟨?_, ?_, ?_⟩,
    by decide, by decide, by decide, by decide, by decide⟩
  · intro heq
    simp [tierOf, heq]
  · intro hne hge
    rw [tierOf, if_neg hne, if_pos hge]
  · intro hne hlt
    rw [tierOf, if_neg hne, if_neg (not_le.mpr hlt)]

/-- Witness for C1 at total 10, score 7: the Pass branch applies. -/
theorem C1_witness : tierOf 7 10 = Tier.Pass :=
  (C1_tier_thresholds.2.1 10 7).2.1 (by decide) (by decide)

/-- Claim C2: a submitted answer is compared with the current question's
correct index; on a match the score increases by exactly one, otherwise it
decreases by exactly one, and nothing else happens to the score. -/
theorem C2_submit_score_delta (app : QuizApp) (q : Question) (i : Nat) (a1 : QuizApp)
    (hq : app.quiz_questions[app.current_question_index]? = some q)
    (h : check_answer app i = Except.ok a1) :
    a1.score = (if i = q.correct_answer then app.score + 1 else app.score - 1) := by
  obtain ⟨q2, hq2, _, _, _, hs, _⟩ := check_answer_ok h
  rw [hq] at hq2
  injection hq2 with hq2
  subst hq2
  exact hs

/-- Witness for C2: answering `demoApp`'s question with choice 1 (the
correct index) raises the score by one. -/
theorem C2_witness :
    demoAfterFirst.score =
      (if 1 = demoQ.correct_answer then demoApp.score + 1 else demoApp.score - 1) :=
  C2_submit_score_delta demoApp demoQ 1 demoAfterFirst rfl rfl

/-- Claim C3: starting from a fresh session (score 0), after any
successfully played sequence of N answers the score equals the number of
correct answers minus the number of incorrect ones, hence lies in
[-N, N]. -/
theorem C3_score_correct_minus_incorrect (qs : List Question) (app : QuizApp)
    (answers : List Nat) (r : PlayOutcome)
    (h0 : initApp (Source.parsed qs) = Except.ok app)
    (h : play app answers = Except.ok r) :
    outcomeScore r =
      (countCorrect qs 0 answers : Int) - (countIncorrect qs 0 answers : Int) ∧
    -(answers.length : Int) ≤ outcomeScore r ∧
    outcomeScore r ≤ (answers.length : Int) := by
  have h0' : load_question (initStateVars qs) = Except.ok app := h0
  obtain ⟨hsc, hqs, hidx, _⟩ := load_question_ok h0'
  have hsc0 : app.score = 0 := by rw [hsc]; rfl
  have hqs0 : app.quiz_questions = qs := by rw [hqs]; rfl
  have hidx0 : app.current_question_index = 0 := by rw [hidx]; rfl
  obtain ⟨hs, _⟩ := play_spec answers app r h
  rw [hsc0, hqs0, hidx0] at hs
  have hsum := count_sum answers qs 0
  refine ⟨by omega, by omega, by omega⟩

/-- Witness for C3: the one-question demo quiz answered correctly. -/
theorem C3_witness :
    outcomeScore demoOutcome =
      (countCorrect [demoQ] 0 [1] : Int) - (countIncorrect [demoQ] 0 [1] : Int) ∧
    -(([1] : List Nat).length : Int) ≤ outcomeScore demoOutcome ∧
    outcomeScore demoOutcome ≤ (([1] : List Nat).length : Int) :=
  C3_score_correct_minus_incorrect [demoQ] demoApp [1] demoOutcome rfl rfl

/-- Claim C4 counterexample: loading the empty question list does not start
a session in a Completed state without error — `__init__` calls
`load_question`, which reads `quiz_questions[0]` and raises IndexError. -/
theorem C4_counterexample :
    initApp (Source.parsed []) = Except.error QuizError.indexError := rfl

/-- Claim C4 amended: loading the empty list sets totalQuestions to 0 and
score to 0, but initialisation then fails with an uncaught IndexError from
`load_question`; the session does not start and no final result is shown.
The tier computation applied to score 0 and total 0 would give Perfect. -/
theorem C4_empty_quiz_crashes :
    (initStateVars []).total_questions = 0 ∧
    (initStateVars []).score = 0 ∧
    load_question (initStateVars []) = Except.error QuizError.indexError ∧
    tierOf 0 0 = Tier.Perfect :=
  ⟨rfl, rfl, rfl, rfl⟩

/-- Claim C5 counterexample: a record whose correct_answer index 5 is out
of range for its three alternatives loads without any error, and the quiz
session starts with it. -/
theorem C5_counterexample :
    badQ.alternatives.length ≤ badQ.correct_answer ∧
    initApp (Source.parsed [badQ]) = Except.ok badApp ∧
    badApp.total_questions = 1 :=
  ⟨by decide, rfl, rfl⟩

/-- Claim C5 amended: the loader validates only JSON decoding — a missing
file and undecodable content are rejected, but parsed records are stored
verbatim with no invariant check, so a record whose correct_answer index
is at or beyond its alternatives count loads successfully and the session
starts. -/
theorem C5_no_record_validation :
    initApp Source.invalid = Except.error QuizError.jsonDecodeError ∧
    (∀ (qs : List Question) (app : QuizApp),
      initApp (Source.parsed qs) = Except.ok app → app.quiz_questions = qs) ∧
    initApp (Source.parsed [badQ]) = Except.ok badApp ∧
    badApp.quiz_questions = [badQ] := by
  refine ⟨rfl, ?_, rfl, rfl⟩
  intro qs app h
  have h' : load_question (initStateVars qs) = Except.ok app := h
  obtain ⟨_, hqs, _, _⟩ := load_question_ok h'
  rw [hqs]
  rfl

/-- Witness for the amended C5: the bad record is stored verbatim. -/
theorem C5_witness : badApp.quiz_questions = [badQ] :=
  C5_no_record_validation.2.1 [badQ] badApp rfl

/-- Claim C6 counterexample: after the first answer is submitted, a second
click on an answer button is simply ignored because the buttons are
disabled; no InvalidStateError — no error of any kind — is raised. -/
theorem C6_counterexample :
    clickAlternative demoApp 1 = ClickResult.handled (Except.ok demoAfterFirst) ∧
    clickAlternative demoAfterFirst 1 = ClickResult.ignored :=
  ⟨rfl, rfl⟩

/-- Claim C6 amended: double answering is prevented by widget state, not by
an error: a successful `check_answer` leaves every answer button disabled,
so every further click before Next is ignored — no handler runs, no error
is raised, and the session state (score included) is untouched. -/
theorem C6_second_submit_ignored (app : QuizApp) (i : Nat) (a1 : QuizApp)
    (h : check_answer app i = Except.ok a1) :
    ∀ j, clickAlternative a1 j = ClickResult.ignored := by
  obtain ⟨q, hq, _, _, _, _, hdis⟩ := check_answer_ok h
  intro j
  unfold clickAlternative
  cases hg : a1.alternative_buttons[j]? with
  | none => rfl
  | some b =>
    have hb : b.state = WidgetState.disabled := by
      obtain ⟨hlt, rfl⟩ := List.getElem?_eq_some.mp hg
      exact hdis _ (List.getElem_mem hlt)
    simp only [hg, hb]

/-- Witness for the amended C6: after the demo answer, a further click on
button 0 is ignored. -/
theorem C6_witness : clickAlternative demoAfterFirst 0 = ClickResult.ignored :=
  C6_second_submit_ignored demoApp 1 demoAfterFirst rfl 0

/-- Claim C7 counterexample: with the two-alternative question `demoQ2`,
clicking the third button — choice index 2, outside [0, 2) — is processed
normally: no InvalidChoiceError (no error at all) and the score drops by
one. -/
theorem C7_counterexample :
    demoQ2.alternatives.length = 2 ∧
    clickAlternative demoApp2 2 = ClickResult.handled (Except.ok demoAfterOOR) ∧
    demoAfterOOR.score = demoApp2.score - 1 :=
  ⟨rfl, rfl, by decide⟩

/-- Claim C7 amended: `check_answer` performs no range validation on the
choice index.  Any clickable button index — including one at or beyond the
current question's alternatives count — is accepted: when it differs from
a well-formed question's correct index the submission succeeds and the
score decreases by one; no InvalidChoiceError exists in the program. -/
theorem C7_out_of_range_choice_accepted (app : QuizApp) (q : Question) (i : Nat)
    (hq : app.quiz_questions[app.current_question_index]? = some q)
    (hb : app.alternative_buttons.length = 3)
    (hi : i < 3)
    (hlen : q.alternatives.length ≤ i)
    (hc : q.correct_answer < q.alternatives.length) :
    ∃ a1, check_answer app i = Except.ok a1 ∧ a1.score = app.score - 1 := by
  have hne : ¬ (i = q.correct_answer) := by omega
  obtain ⟨t, ht⟩ : ∃ t, q.alternatives[q.correct_answer]? = some t :=
    ⟨_, List.getElem?_eq_getElem hc⟩
  have hdlen : (disableAll app.alternative_buttons).length = 3 := by
    simp [disableAll, hb]
  obtain ⟨bs1, hbg1, hlen1⟩ :=
    @configBg_some_of_lt (disableAll app.alternative_buttons) i "red" (by omega)
  obtain ⟨bs2, hbg2, _⟩ :=
    @configBg_some_of_lt bs1 q.correct_answer "lightgreen" (by omega)
  have hok : check_answer app i = Except.ok
      { app with
        score := app.score - 1
        feedback_label := "Incorrect! The correct answer was: " ++ t
        alternative_buttons := bs2
        score_label := scoreText (app.score - 1)
        next_button_state := WidgetState.normal } := by
    unfold check_answer
    simp only [hq, if_neg hne, ht, hbg1, hbg2]
  exact ⟨_, hok, rfl⟩

/-- Witness for the amended C7 at the concrete out-of-range click. -/
theorem C7_witness :
    ∃ a1, check_answer demoApp2 2 = Except.ok a1 ∧ a1.score = demoApp2.score - 1 :=
  C7_out_of_range_choice_accepted demoApp2 demoQ2 2 rfl rfl
    (by decide) (by decide) (by decide)

/-- Claim C8: a missing question source is fatal at startup: `__init__`
takes the FileNotFoundError branch, surfaces its dialog text, destroys the
window and returns, so no session state is ever initialised. -/
theorem C8_missing_source_fatal :
    initApp Source.missing = Except.error QuizError.fileNotFound ∧
    errorDialog QuizError.fileNotFound = some "quiz_questions.json not found!" ∧
    (initApp Source.missing).toOption = none :=
  ⟨rfl, rfl, rfl⟩

/-- Claim C9: the total reported by the final results always equals the
totalQuestions captured at construction, and no operation — answering,
advancing, or a whole played run — ever changes totalQuestions. -/
theorem C9_total_invariant :
    (∀ (app a1 : QuizApp) (a : Nat), check_answer app a = Except.ok a1 →
      a1.total_questions = app.total_questions) ∧
    (∀ app a2 : QuizApp, next_question app = Except.ok (Sum.inl a2) →
      a2.total_questions = app.total_questions) ∧
    (∀ (app : QuizApp) (fr : FinalResult), next_question app = Except.ok (Sum.inr fr) →
      fr.total = app.total_questions) ∧
    (∀ app : QuizApp, (show_final_results app).total = app.total_questions) ∧
    (∀ (qs : List Question) (app : QuizApp),
      initApp (Source.parsed qs) = Except.ok app → app.total_questions = qs.length) ∧
    (∀ (app : QuizApp) (answers : List Nat) (r : PlayOutcome),
      play app answers = Except.ok r → outcomeTotal r = app.total_questions) := by
  refine ⟨?_, ?_, ?_, fun app => rfl, ?_, ?_⟩
  · intro app a1 a h
    obtain ⟨q, hq, hqs, hidx, htot, hsc, hdis⟩ := check_answer_ok h
    exact htot
  · intro app a2 h
    exact (next_question_inl h).2.2.2
  · intro app fr h
    exact (next_question_inr h).2.1
  · intro qs app h
    have h' : load_question (initStateVars qs) = Except.ok app := h
    obtain ⟨_, _, _, htot⟩ := load_question_ok h'
    rw [htot]
    rfl
  · intro app answers r h
    exact (play_spec answers app r h).2

/-- Witness for C9: answering `demoApp`'s question keeps the total. -/
theorem C9_witness : demoAfterFirst.total_questions = demoApp.total_questions :=
  C9_total_invariant.1 demoApp demoAfterFirst 1 rfl

/-- Claim C10: with the fixed list of exactly three answer buttons,
displaying the current question fails with an out-of-range index exactly
when it has more than three alternatives, and succeeds whenever it has at
most three. -/
theorem C10_three_button_limit (app : QuizApp) (q : Question)
    (hb : app.alternative_buttons.length = 3)
    (hq : app.quiz_questions[app.current_question_index]? = some q) :
    (3 < q.alternatives.length → load_question app = Except.error QuizError.indexError) ∧
    (q.alternatives.length ≤ 3 → ∃ a2, load_question app = Except.ok a2) := by
  have hel : (enableAll app.alternative_buttons).length = 3 := by
    simp [enableAll, hb]
  constructor
  · intro hgt
    have hn := configTexts_none_of_lt q.alternatives (enableAll app.alternative_buttons)
      (by omega)
    unfold load_question
    simp only [hq, hn]
  · intro hle
    obtain ⟨bs2, hs⟩ :=
      configTexts_some_of_le q.alternatives (enableAll app.alternative_buttons) (by omega)
    refine ⟨{ app with
        feedback_label := ""
        next_button_state := WidgetState.disabled
        question_label := q.question
        alternative_buttons := bs2 }, ?_⟩
    unfold load_question
    simp only [hq, hs]

/-- Witness for C10: loading the four-alternative question fails. -/
theorem C10_witness :
    load_question (initStateVars [demoQ4]) = Except.error QuizError.indexError :=
  (C10_three_button_limit (initStateVars [demoQ4]) demoQ4 rfl rfl).1 (by decide)

end GUIQuiz
